import Mathlib

/-!
Shallow embedding of the Airtimebackend ledger and reconciliation routes
(`src/server.js`) and proofs of the specification's claims about them.

Monetary amounts are rationals (the store's decimals); the database is a
small record of the rows the routes touch; each route handler becomes a
pure state-transformer taking the provider's outcome as an explicit
parameter.
-/

namespace Airtime

/-! ## Phone formatting (`formatPhoneNumber`, server.js:68-79) -/

/-- A character the regex `[^0-9]` keeps. -/
def isDigitCh (c : Char) : Bool := '0' ≤ c && c ≤ '9'

/-- `phone.replace(/\s+/g,'').replace(/[^0-9]/g,'')`: stripping whitespace
and then every non-digit is stripping every non-digit. -/
def stripNonDigits (l : List Char) : List Char := l.filter isDigitCh

/-- The branch ladder of `formatPhoneNumber` after the strip
(`startsWith` is prefix testing). -/
def formatCore (l : List Char) : List Char :=
  if List.isPrefixOf ['0'] l then '2' :: '5' :: '4' :: l.drop 1
  else if List.isPrefixOf ['+', '2', '5', '4'] l then l.drop 1
  else if List.isPrefixOf ['2', '5', '4'] l then l
  else '2' :: '5' :: '4' :: l

/-- `formatPhoneNumber` (server.js:68-79). -/
def formatPhoneNumber (s : String) : String :=
  String.mk (formatCore (stripNonDigits s.data))

/-! ## Data model -/

/-- Transaction status column: `pending`, `success`, `failed`. -/
inductive TxStatus
  | pending
  | success
  | failed
deriving DecidableEq

/-- Transaction `type` column values used by the modelled routes. -/
inductive TxKind
  | deposit
  | airtimePurchase
  | directPurchase
  | adjustment
deriving DecidableEq

/-- A row of `transactions`. -/
structure Tx where
  id : Nat
  userId : Option Nat
  kind : TxKind
  amount : ℚ
  bonus : ℚ
  fee : ℚ
  status : TxStatus
  providerRef : Option String
  mpesaCode : Option String
  phone : String
deriving DecidableEq

/-- `pending_purchases.status`. -/
inductive QStatus
  | pending
  | completed
deriving DecidableEq

/-- A row of `pending_purchases` (the spec's QueuedPurchase). -/
structure QP where
  id : Nat
  userId : Nat
  targetPhone : String
  amount : ℚ
  status : QStatus
deriving DecidableEq

/-- A row of `deposit_verifications`. -/
structure Verification where
  mpesaCode : String
  userId : Nat
  amount : ℚ
  status : String
deriving DecidableEq

/-- A row of `users` (the spec's Account). -/
structure User where
  id : Nat
  username : String
  balance : ℚ
  status : String
deriving DecidableEq

/-- The `system_settings` values the modelled routes read, already parsed
with their code defaults (`'50'`, `'6'`, `'10'`). -/
structure Settings where
  depositBonusThreshold : ℚ
  depositBonusAmount : ℚ
  airtimeDiscountRate : ℚ
deriving DecidableEq

/-- Database state as seen by the modelled routes: the account under
scrutiny, its transactions, queued purchases and verification rows, the
settings store, a notification counter and a fresh-id source. -/
structure St where
  user : User
  txs : List Tx
  queued : List QP
  verifs : List Verification
  settings : Settings
  notifCount : Nat
  nextId : Nat
deriving DecidableEq

/-- HTTP responses of the modelled routes, reduced to the data the claims
mention. -/
inductive Resp
  | validationError (msg : String)
  | notFound
  | insufficient (required available shortfall : ℚ)
  | providerError
  | serverError
  | depositStarted (txId : Nat)
  | airtimeOk (txId : Nat) (delivered : ℤ)
  | callbackAck (ok : Bool)
  | adminOk
deriving DecidableEq

/-- Outcome of the PayNecta `payments/initialize` call: `data.success`
true (with a checkout id), `data.success` false, or the fetch throwing. -/
inductive PayOutcome
  | ok (checkoutId : String)
  | declined
  | transportError
deriving DecidableEq

/-- Outcome of the Statum `airtime` call: `status_code === 200` (with a
request id), any other status code, or the fetch throwing. -/
inductive StatumOutcome
  | ok (requestId : String)
  | declined
  | transportError
deriving DecidableEq

/-- `UPDATE transactions SET ... WHERE id = txId`. -/
def updTx (txs : List Tx) (txId : Nat) (f : Tx → Tx) : List Tx :=
  txs.map (fun t => if t.id = txId then f t else t)

/-! ## Routes -/

/-- The `transactions` row inserted by the deposit route
(server.js:274-279). -/
def depositTxRow (st : St) (phone : String) (amount : ℚ) : Tx :=
  { id := st.nextId, userId := some st.user.id, kind := TxKind.deposit,
    amount := amount, bonus := 0, fee := 0, status := TxStatus.pending,
    providerRef := none, mpesaCode := none, phone := formatPhoneNumber phone }

/-- `POST /api/payments/deposit` (server.js:255-327): validate the
minimum, look up the user, insert a pending transaction, call PayNecta.
On `data.success` store the provider reference; on a declined response
mark the transaction failed; a thrown fetch lands in the catch block,
which only sends a 500. -/
def depositInit (st : St) (username phone : String) (amount : ℚ)
    (outcome : PayOutcome) : St × Resp :=
  if amount < 10 then (st, Resp.validationError "Minimum deposit is KES 10")
  else if username = st.user.username then
    let txId := st.nextId
    let tx : Tx := depositTxRow st phone amount
    let st1 : St := { st with txs := st.txs ++ [tx], nextId := txId + 1 }
    match outcome with
    | PayOutcome.ok checkoutId =>
        let setRef := fun (t : Tx) => { t with providerRef := some checkoutId }
        ({ st1 with txs := updTx st1.txs txId setRef }, Resp.depositStarted txId)
    | PayOutcome.declined =>
        let setFailed := fun (t : Tx) => { t with status := TxStatus.failed }
        ({ st1 with txs := updTx st1.txs txId setFailed }, Resp.providerError)
    | PayOutcome.transportError => (st1, Resp.serverError)
  else (st, Resp.notFound)

/-- `reference.replace('DEP-', '')`: remove the first occurrence of the
pattern. -/
def replaceFirstSub (pat : List Char) : List Char → List Char
  | [] => []
  | c :: rest =>
      if pat.isPrefixOf (c :: rest) then (c :: rest).drop pat.length
      else c :: replaceFirstSub pat rest

/-- `LIKE '%' || pat || '%'`: `pat` occurs as a contiguous run of `l`. -/
def containsSub (pat : List Char) : List Char → Bool
  | [] => pat.isEmpty
  | c :: rest => pat.isPrefixOf (c :: rest) || containsSub pat rest

/-- The callback's fuzzy match:
`t.provider_reference = $1 OR t.id::text LIKE '%' || strip || '%'`. -/
def refMatches (t : Tx) (ref : String) : Bool :=
  t.providerRef == some ref ||
    containsSub (replaceFirstSub "DEP-".data ref.data) (Nat.toDigits 10 t.id)

/-- The callback's transaction lookup joined with `users`. -/
def findTxByRef (st : St) (ref : String) : Option Tx :=
  st.txs.find? (fun t => t.userId == some st.user.id && refMatches t ref)

/-- The callback's bonus computation (server.js:373-376). -/
def depositBonusCb (a : ℚ) (s : Settings) : ℚ :=
  if a ≥ s.depositBonusThreshold then s.depositBonusAmount else 0

/-- `parseFloat(amount || tx.amount)`: the callback body's amount when
present and non-zero, else the stored transaction amount. -/
def depositAmountOf (cbAmount : Option ℚ) (txAmount : ℚ) : ℚ :=
  match cbAmount with
  | some v => if v = 0 then txAmount else v
  | none => txAmount

/-- `processPendingPurchase` (server.js:696-759): re-read the queued row
and the balance, and only when the balance covers it call Statum; on
`status_code === 200` debit, insert a success transaction, mark the row
completed and notify; on any other outcome (or a thrown fetch, swallowed
by the catch) change nothing. -/
def processPendingPurchase (st : St) (userId pendingId : Nat)
    (outcome : StatumOutcome) : St :=
  match st.queued.find? (fun q => q.id == pendingId) with
  | none => st
  | some q =>
    if userId = st.user.id then
      if st.user.balance ≥ q.amount then
        match outcome with
        | StatumOutcome.ok reqId =>
            let st1 : St :=
              { st with user := { st.user with balance := st.user.balance - q.amount } }
            let tx : Tx :=
              { id := st1.nextId, userId := some userId,
                kind := TxKind.airtimePurchase, amount := q.amount,
                bonus := 0, fee := 0, status := TxStatus.success,
                providerRef := some reqId, mpesaCode := none,
                phone := q.targetPhone }
            let st2 : St := { st1 with txs := st1.txs ++ [tx], nextId := st1.nextId + 1 }
            let markDone := fun (p : QP) =>
              if p.id = pendingId then { p with status := QStatus.completed } else p
            let st3 : St := { st2 with queued := st2.queued.map markDone }
            { st3 with notifCount := st3.notifCount + 1 }
        | _ => st
      else st
    else st

/-- `POST /api/callbacks/paynecta` (server.js:350-423): find the
transaction by reference (regardless of its current status), and on a
`success`/`completed` body credit `amount + bonus`, rewrite the
transaction row, attempt the oldest pending queued purchase, and record a
notification; otherwise mark the transaction failed. -/
def paynectaCallback (st : St) (ref : String) (cbStatus : String)
    (cbAmount : Option ℚ) (code : String) (statum : StatumOutcome) : St × Resp :=
  match findTxByRef st ref with
  | none => (st, Resp.callbackAck false)
  | some tx =>
    if cbStatus = "success" ∨ cbStatus = "completed" then
      let a := depositAmountOf cbAmount tx.amount
      let bonus := depositBonusCb a st.settings
      let setDone := fun (t : Tx) =>
        { t with status := TxStatus.success, mpesaCode := some code, bonus := bonus }
      let st1 : St := { st with txs := updTx st.txs tx.id setDone }
      let st2 : St :=
        { st1 with user := { st1.user with balance := st1.user.balance + (a + bonus) } }
      let isPendingQ := fun (q : QP) => q.userId == st.user.id && q.status == QStatus.pending
      let st3 : St :=
        match st2.queued.find? isPendingQ with
        | some q => processPendingPurchase st2 st.user.id q.id statum
        | none => st2
      ({ st3 with notifCount := st3.notifCount + 1 }, Resp.callbackAck true)
    else
      let setFailed := fun (t : Tx) => { t with status := TxStatus.failed }
      ({ st with txs := updTx st.txs tx.id setFailed }, Resp.callbackAck true)

/-- `amount * (1 - discountRate / 100)` (server.js:466). -/
def airtimeValueOf (amount : ℚ) (s : Settings) : ℚ :=
  amount * (1 - s.airtimeDiscountRate / 100)

/-- The `pending_purchases` row inserted by the insufficient-balance
branch (server.js:470-474). -/
def queuedRow (st : St) (targetPhone : String) (amount : ℚ) : QP :=
  { id := st.nextId, userId := st.user.id,
    targetPhone := formatPhoneNumber targetPhone, amount := amount,
    status := QStatus.pending }

/-- The `transactions` row inserted by the airtime-buy route before the
provider call (server.js:486-491). -/
def airtimeTxRow (st : St) (targetPhone : String) (amount : ℚ) : Tx :=
  { id := st.nextId, userId := some st.user.id, kind := TxKind.airtimePurchase,
    amount := amount, bonus := 0, fee := 0, status := TxStatus.pending,
    providerRef := none, mpesaCode := none,
    phone := formatPhoneNumber targetPhone }

/-- The state of `POST /api/airtime/buy` at the moment the Statum fetch
is issued, or the early return before it. -/
inductive BuyStage
  | rejected (st : St) (r : Resp)
  | callProvider (st : St) (txId : Nat) (sendAmount : ℤ)

/-- State component of a `BuyStage`. -/
def stageSt : BuyStage → St
  | BuyStage.rejected st _ => st
  | BuyStage.callProvider st _ _ => st

/-- Whether a `BuyStage` reaches the provider call. -/
def stageIsCall : BuyStage → Bool
  | BuyStage.rejected _ _ => false
  | BuyStage.callProvider _ _ _ => true

/-- `POST /api/airtime/buy` up to the Statum fetch (server.js:444-508):
minimum check, active-user lookup, and either the insufficient-balance
branch (queue the purchase, report the shortfall) or the insertion of a
pending transaction followed by the provider call with the floored
discounted value. -/
def airtimeBuyStage1 (st : St) (username targetPhone : String) (amount : ℚ) :
    BuyStage :=
  if amount < 5 then
    BuyStage.rejected st (Resp.validationError "Minimum airtime is KES 5")
  else if username = st.user.username ∧ st.user.status = "active" then
    let airtimeValue := airtimeValueOf amount st.settings
    if st.user.balance < amount then
      let qp : QP := queuedRow st targetPhone amount
      BuyStage.rejected
        { st with queued := st.queued ++ [qp], nextId := st.nextId + 1 }
        (Resp.insufficient amount st.user.balance (amount - st.user.balance))
    else
      let tx : Tx := airtimeTxRow st targetPhone amount
      BuyStage.callProvider
        { st with txs := st.txs ++ [tx], nextId := st.nextId + 1 }
        st.nextId ⌊airtimeValue⌋
  else BuyStage.rejected st Resp.notFound

/-- `POST /api/airtime/buy` after the Statum response
(server.js:510-545): on `status_code === 200` deduct the full amount and
mark the transaction success with the fee; on a declined response mark it
failed; a thrown fetch lands in the catch block, which only sends a 500. -/
def airtimeBuyFinish (st : St) (txId : Nat) (amount : ℚ)
    (outcome : StatumOutcome) : St × Resp :=
  let airtimeValue := airtimeValueOf amount st.settings
  match outcome with
  | StatumOutcome.ok reqId =>
      let st1 : St :=
        { st with user := { st.user with balance := st.user.balance - amount } }
      let setDone := fun (t : Tx) =>
        { t with status := TxStatus.success, providerRef := some reqId,
                 fee := amount - airtimeValue }
      let st2 : St := { st1 with txs := updTx st1.txs txId setDone }
      (st2, Resp.airtimeOk txId ⌊airtimeValue⌋)
  | StatumOutcome.declined =>
      let setFailed := fun (t : Tx) => { t with status := TxStatus.failed }
      ({ st with txs := updTx st.txs txId setFailed }, Resp.providerError)
  | StatumOutcome.transportError => (st, Resp.serverError)

/-- `POST /api/airtime/buy` (server.js:444-545), whole route. -/
def airtimeBuy (st : St) (username targetPhone : String) (amount : ℚ)
    (outcome : StatumOutcome) : St × Resp :=
  match airtimeBuyStage1 st username targetPhone amount with
  | BuyStage.rejected st1 r => (st1, r)
  | BuyStage.callProvider st1 txId _ => airtimeBuyFinish st1 txId amount outcome

/-- The admin route's bonus computation (server.js:1128-1131). -/
def depositBonusAdmin (a : ℚ) (s : Settings) : ℚ :=
  if a ≥ s.depositBonusThreshold then s.depositBonusAmount else 0

/-- `PUT /api/admin/verify-deposit/:id` (server.js:1115-1172): look up the
transaction by id; on approval compute the bonus from the settings, set
amount/bonus/status on the transaction, credit `amount + bonus`, mark the
matching verification rows verified and notify; on rejection mark the
transaction and the matching verification rows failed. -/
def adminVerifyDeposit (st : St) (txId : Nat) (amount : ℚ) (approve : Bool) :
    St × Resp :=
  match st.txs.find? (fun t => t.id == txId) with
  | none => (st, Resp.notFound)
  | some tx =>
    if approve then
      let bonus := depositBonusAdmin amount st.settings
      let setDone := fun (t : Tx) =>
        { t with amount := amount, bonus := bonus, status := TxStatus.success }
      let st1 : St := { st with txs := updTx st.txs txId setDone }
      let st2 : St :=
        if tx.userId = some st.user.id then
          { st1 with user := { st1.user with balance := st1.user.balance + (amount + bonus) } }
        else st1
      let markVerified := fun (v : Verification) =>
        if some v.mpesaCode = tx.mpesaCode then
          { v with amount := amount, status := "verified" } else v
      let st3 : St := { st2 with verifs := st2.verifs.map markVerified }
      ({ st3 with notifCount := st3.notifCount + 1 }, Resp.adminOk)
    else
      let setFailed := fun (t : Tx) => { t with status := TxStatus.failed }
      let st1 : St := { st with txs := updTx st.txs txId setFailed }
      let markFailed := fun (v : Verification) =>
        if some v.mpesaCode = tx.mpesaCode then { v with status := "failed" } else v
      let st2 : St := { st1 with verifs := st1.verifs.map markFailed }
      (st2, Resp.adminOk)

/-- `PUT /api/admin/users/:id/balance` (server.js:1057-1078): add the
signed adjustment to the balance and log an adjustment transaction. -/
def adminAdjustBalance (st : St) (userId : Nat) (amount : ℚ) : St × Resp :=
  let st1 : St :=
    if userId = st.user.id then
      { st with user := { st.user with balance := st.user.balance + amount } }
    else st
  let tx : Tx :=
    { id := st1.nextId, userId := some userId, kind := TxKind.adjustment,
      amount := amount, bonus := 0, fee := 0, status := TxStatus.success,
      providerRef := none, mpesaCode := none, phone := "" }
  ({ st1 with txs := st1.txs ++ [tx], nextId := st1.nextId + 1 }, Resp.adminOk)

/-- `PUT /api/admin/settings/:key` (server.js:1185-1195), for the three
settings the modelled routes read. -/
def adminUpdateSettings (st : St) (s : Settings) : St :=
  { st with settings := s }

/-! ## Concrete fixtures -/

/-- A fresh active account with balance 0 and the code-default settings
(threshold 50, bonus 6, discount 10%). -/
def baseSt : St :=
  { user := { id := 1, username := "alice", balance := 0, status := "active" },
    txs := [], queued := [], verifs := [],
    settings := { depositBonusThreshold := 50, depositBonusAmount := 6,
                  airtimeDiscountRate := 10 },
    notifCount := 0, nextId := 1 }

/-- `baseSt` with balance 1. -/
def balOneSt : St := { baseSt with user := { baseSt.user with balance := 1 } }

/-- `baseSt` with balance 3. -/
def balThreeSt : St := { baseSt with user := { baseSt.user with balance := 3 } }

/-- `baseSt` with balance 5. -/
def balFiveSt : St := { baseSt with user := { baseSt.user with balance := 5 } }

/-- `baseSt` with balance 10. -/
def balTenSt : St := { baseSt with user := { baseSt.user with balance := 10 } }

/-- `baseSt` after a KES 60 deposit was initiated with provider reference
`CHK1` and its first successful callback was processed: the transaction is
terminal (`success`) and the balance is 66. -/
def afterFirstCallbackSt : St :=
  (paynectaCallback
    (depositInit baseSt "alice" "0712345678" 60 (PayOutcome.ok "CHK1")).1
    "CHK1" "success" none "MP1" StatumOutcome.transportError).1

/-- The same successful callback for reference `CHK1` delivered a second
time, after the transaction is already terminal. -/
def afterSecondCallbackSt : St :=
  (paynectaCallback afterFirstCallbackSt
    "CHK1" "success" none "MP1" StatumOutcome.transportError).1

/-- `baseSt` holding one deposit transaction already in the terminal
state `failed` (e.g. the payer cancelled the STK push), with provider
reference `CHK1`. -/
def failedDepositSt : St :=
  { baseSt with txs :=
      [{ id := 1, userId := some 1, kind := TxKind.deposit, amount := 60,
         bonus := 0, fee := 0, status := TxStatus.failed,
         providerRef := some "CHK1", mpesaCode := none,
         phone := "254712345678" }] }

/-- `baseSt` holding a pending manual-verification deposit transaction
(amount still 0, M-Pesa code `ABC123`) and its verification row. -/
def manualVerifySt : St :=
  { baseSt with
    txs :=
      [{ id := 1, userId := some 1, kind := TxKind.deposit, amount := 0,
         bonus := 0, fee := 0, status := TxStatus.pending,
         providerRef := none, mpesaCode := some "ABC123",
         phone := "254712345678" }],
    verifs := [{ mpesaCode := "ABC123", userId := 1, amount := 0,
                 status := "pending" }] }

/-! ## Phone formatting lemmas -/

theorem stripNonDigits_all (l : List Char) :
    (stripNonDigits l).all isDigitCh = true := by
  simp only [stripNonDigits, List.all_eq_true]
  intro x hx
  exact (List.mem_filter.mp hx).2

theorem formatCore_all {l : List Char} (h : l.all isDigitCh = true) :
    (formatCore l).all isDigitCh = true := by
  have hdrop : (l.drop 1).all isDigitCh = true := by
    simp only [List.all_eq_true] at h ⊢
    intro x hx
    exact h x (List.drop_subset 1 l hx)
  unfold formatCore
  split
  · simp only [List.all_cons, hdrop, Bool.and_true]
    decide
  · split
    · exact hdrop
    · split
      · exact h
      · simp only [List.all_cons, h, Bool.and_true]
        decide

theorem formatCore_prefix254 (l : List Char) :
    ['2', '5', '4'] <+: formatCore l := by
  unfold formatCore
  split
  · exact ⟨l.drop 1, rfl⟩
  · split
    · next h1 h2 =>
      obtain ⟨t, ht⟩ := List.isPrefixOf_iff_prefix.mp h2
      refine ⟨t, ?_⟩
      rw [← ht]
      rfl
    · split
      · next h1 h2 h3 =>
        exact List.isPrefixOf_iff_prefix.mp h3
      · exact ⟨l, rfl⟩

theorem stripNonDigits_of_all {l : List Char} (h : l.all isDigitCh = true) :
    stripNonDigits l = l := by
  apply List.filter_eq_self.mpr
  intro a ha
  exact List.all_eq_true.mp h a ha

theorem formatCore_of_prefix254 {l : List Char} (h : ['2', '5', '4'] <+: l) :
    formatCore l = l := by
  obtain ⟨t, ht⟩ := h
  subst ht
  unfold formatCore
  rw [show List.isPrefixOf ['0'] (['2', '5', '4'] ++ t) = false from rfl]
  rw [show List.isPrefixOf ['+', '2', '5', '4'] (['2', '5', '4'] ++ t) = false from rfl]
  rw [show List.isPrefixOf ['2', '5', '4'] (['2', '5', '4'] ++ t) = true from
    List.isPrefixOf_iff_prefix.mpr ⟨t, rfl⟩]
  simp

/-- Claim C10: for every input string, `formatPhoneNumber` returns a
string of digits only that begins with `254`, and it is idempotent. -/
theorem formatPhoneNumber_digits_prefix254_idem (s : String) :
    (formatPhoneNumber s).data.all isDigitCh = true ∧
    ['2', '5', '4'] <+: (formatPhoneNumber s).data ∧
    formatPhoneNumber (formatPhoneNumber s) = formatPhoneNumber s := by
  have hall : (formatCore (stripNonDigits s.data)).all isDigitCh = true :=
    formatCore_all (stripNonDigits_all s.data)
  have hpre : ['2', '5', '4'] <+: formatCore (stripNonDigits s.data) :=
    formatCore_prefix254 _
  refine ⟨hall, hpre, ?_⟩
  show String.mk (formatCore (stripNonDigits (formatCore (stripNonDigits s.data)))) =
    String.mk (formatCore (stripNonDigits s.data))
  rw [stripNonDigits_of_all hall, formatCore_of_prefix254 hpre]

/-! ## General lemmas about the routes -/

theorem updTx_append_fresh {txs : List Tx} {i : Nat} {f : Tx → Tx} {t : Tx}
    (hfresh : ∀ u ∈ txs, u.id ≠ i) (hid : t.id = i) :
    updTx (txs ++ [t]) i f = txs ++ [f t] := by
  unfold updTx
  rw [List.map_append]
  congr 1
  · calc txs.map (fun u => if u.id = i then f u else u)
        = txs.map id := List.map_congr_left (fun u hu => by rw [if_neg (hfresh u hu), id])
      _ = txs := List.map_id txs
  · simp [hid]

/-- Claim C2 (status: code_bug): the code has no terminal-state guard in
the PayNecta callback; delivering the same successful deposit callback
(reference `CHK1`, amount 60, bonus 6) a second time credits the account
again — the balance is 66 after the first delivery and 132 after the
second, so the repeated callback is not a no-op. -/
theorem duplicateCallbackRecredits :
    afterFirstCallbackSt.user.balance = 66 ∧
    afterSecondCallbackSt.user.balance = 132 := by
  constructor
  · norm_num [afterFirstCallbackSt, paynectaCallback, depositInit, depositTxRow,
      findTxByRef, refMatches, depositAmountOf, depositBonusCb, updTx,
      processPendingPurchase, baseSt]
  · norm_num [afterSecondCallbackSt, afterFirstCallbackSt, paynectaCallback,
      depositInit, depositTxRow, findTxByRef, refMatches, depositAmountOf,
      depositBonusCb, updTx, processPendingPurchase, baseSt]

/-- Claim C3 (status: code_bug): the callback route rewrites the status
unconditionally, so a transaction already in the terminal state `failed`
is moved to `success` (and the balance credited) by a late success
callback — the transition failed→success the claim forbids. -/
theorem failedTxFlippedToSuccess :
    (failedDepositSt.txs.map Tx.status = [TxStatus.failed]) ∧
    ((paynectaCallback failedDepositSt "CHK1" "success" none "MP2"
        StatumOutcome.transportError).1.txs.map Tx.status
      = [TxStatus.success]) ∧
    (paynectaCallback failedDepositSt "CHK1" "success" none "MP2"
        StatumOutcome.transportError).1.user.balance = 66 := by
  refine ⟨rfl, ?_, ?_⟩ <;>
    norm_num [failedDepositSt, paynectaCallback, findTxByRef, refMatches,
      depositAmountOf, depositBonusCb, updTx, processPendingPurchase, baseSt]

/-- Claim C4 counterexample: an airtime request for 3 by an active account
with balance 1 (balance < amount) is rejected by the KES 5 minimum check
before the insufficient-balance branch, so no QueuedPurchase row is
created and no shortfall is reported, contrary to the claim. -/
theorem belowMinimumSkipsQueue :
    balOneSt.user.balance < 3 ∧
    (airtimeBuy balOneSt "alice" "0712345678" 3 StatumOutcome.transportError).1
      = balOneSt ∧
    (airtimeBuy balOneSt "alice" "0712345678" 3 StatumOutcome.transportError).2
      = Resp.validationError "Minimum airtime is KES 5" := by
  refine ⟨?_, ?_, ?_⟩ <;>
    norm_num [airtimeBuy, airtimeBuyStage1, balOneSt, baseSt]

/-- Claim C5 counterexample: with balance 10 and a request for 5, the
state in which the Statum call is issued still has balance 10 — the
account has not been debited before the provider call, contrary to the
claimed optimistic debit (which would require balance 10 - 5). -/
theorem noDebitBeforeProviderCall :
    stageIsCall (airtimeBuyStage1 balTenSt "alice" "0712345678" 5) = true ∧
    (stageSt (airtimeBuyStage1 balTenSt "alice" "0712345678" 5)).user.balance = 10 ∧
    ¬ ((10 : ℚ) = 10 - 5) := by
  refine ⟨?_, ?_, ?_⟩ <;>
    norm_num [airtimeBuyStage1, stageIsCall, stageSt, airtimeTxRow, balTenSt, baseSt]

/-- Claim C6 counterexample: a deposit initiation for 20 whose provider
fetch fails at the transport level returns the generic 500 error (no
distinguished ProviderUnavailable outcome) and leaves the pending
transaction row in `pending`, not `failed`. -/
theorem transportErrorLeavesPendingConcrete :
    ((depositInit baseSt "alice" "0712345678" 20 PayOutcome.transportError).1.txs.map
        Tx.status = [TxStatus.pending]) ∧
    (depositInit baseSt "alice" "0712345678" 20 PayOutcome.transportError).2
      = Resp.serverError := by
  refine ⟨?_, ?_⟩ <;>
    norm_num [depositInit, depositTxRow, baseSt]

/-- Claim C7 counterexample: with discount setting 10 (percent) and a
request for 5, the delivered value is `Math.floor(5 * 0.9) = 4`, which is
neither `5 * (1 - 10/100) = 4.5` nor `5 * (1 - 10)`. -/
theorem deliveredValueIsFloored :
    (airtimeBuy balTenSt "alice" "0712345678" 5 (StatumOutcome.ok "RQ1")).2
      = Resp.airtimeOk 1 4 ∧
    ¬ ((4 : ℚ) = 5 * (1 - 10 / 100)) ∧
    ¬ ((4 : ℚ) = 5 * (1 - 10)) := by
  refine ⟨?_, ?_, ?_⟩ <;>
    norm_num [airtimeBuy, airtimeBuyStage1, airtimeBuyFinish, airtimeValueOf,
      airtimeTxRow, updTx, balTenSt, baseSt]

/-- Claim C9 counterexample: the admin balance adjustment applies an
unguarded signed delta; adjusting an account with balance 5 by -6 leaves
a negative balance. -/
theorem adminAdjustmentGoesNegative :
    (0 : ℚ) ≤ balFiveSt.user.balance ∧
    (adminAdjustBalance balFiveSt 1 (-6)).1.user.balance < 0 := by
  refine ⟨?_, ?_⟩ <;> norm_num [adminAdjustBalance, balFiveSt, baseSt]

/-- Claim C4 (amended with the KES 5 minimum): an airtime request with
amount ≥ 5 by an active account whose balance is below the amount leaves
the balance and transactions unchanged, appends exactly one pending
QueuedPurchase row, and is rejected reporting the shortfall. -/
theorem insufficientBalanceQueues (st : St) (username targetPhone : String)
    (amount : ℚ) (o : StatumOutcome)
    (hmin : 5 ≤ amount)
    (huser : username = st.user.username)
    (hactive : st.user.status = "active")
    (hbal : st.user.balance < amount) :
    (airtimeBuy st username targetPhone amount o).1.user.balance
        = st.user.balance ∧
    (airtimeBuy st username targetPhone amount o).1.txs = st.txs ∧
    (airtimeBuy st username targetPhone amount o).1.queued
        = st.queued ++ [queuedRow st targetPhone amount] ∧
    (queuedRow st targetPhone amount).status = QStatus.pending ∧
    (queuedRow st targetPhone amount).amount = amount ∧
    (airtimeBuy st username targetPhone amount o).2
        = Resp.insufficient amount st.user.balance (amount - st.user.balance) := by
  have h5 : ¬ amount < 5 := not_lt.mpr hmin
  simp only [airtimeBuy, airtimeBuyStage1, if_neg h5,
    if_pos (And.intro huser hactive), if_pos hbal]
  and_intros <;> trivial

theorem airtimeBuyStage1_call (st : St) (u tp : String) (a : ℚ)
    (hmin : ¬ a < 5) (hu : u = st.user.username)
    (hactive : st.user.status = "active") (hbal : ¬ st.user.balance < a) :
    airtimeBuyStage1 st u tp a
      = BuyStage.callProvider
          { st with txs := st.txs ++ [airtimeTxRow st tp a],
                    nextId := st.nextId + 1 }
          st.nextId ⌊airtimeValueOf a st.settings⌋ := by
  simp only [airtimeBuyStage1, if_neg hmin, if_pos (And.intro hu hactive),
    if_neg hbal]

/-- Claim C5 (amended): in the airtime-buy path the account is *not*
debited before the provider call — the state in which the provider is
called still carries the original balance; the debit happens only after a
successful provider response, and on a declined response or transport
error no debit was made, so the balance trivially equals its pre-call
value. -/
theorem debitOnlyAfterProviderSuccess (st : St) (u tp rid : String) (a : ℚ)
    (hmin : 5 ≤ a) (hu : u = st.user.username)
    (hactive : st.user.status = "active") (hbal : a ≤ st.user.balance) :
    (stageSt (airtimeBuyStage1 st u tp a)).user.balance = st.user.balance ∧
    (airtimeBuy st u tp a StatumOutcome.declined).1.user.balance
        = st.user.balance ∧
    (airtimeBuy st u tp a StatumOutcome.transportError).1.user.balance
        = st.user.balance ∧
    (airtimeBuy st u tp a (StatumOutcome.ok rid)).1.user.balance
        = st.user.balance - a := by
  have h5 : ¬ a < 5 := not_lt.mpr hmin
  have hb : ¬ st.user.balance < a := not_lt.mpr hbal
  simp only [airtimeBuy, airtimeBuyStage1_call st u tp a h5 hu hactive hb,
    stageSt, airtimeBuyFinish]
  and_intros <;> trivial

/-- Claim C6 (amended): a transport-level provider failure is caught at
the route boundary and answered with the generic server error — there is
no distinguished ProviderUnavailable outcome — and the freshly inserted
transaction row stays `pending` (it is not marked failed); the balance is
untouched. Holds for both the deposit route and the airtime-buy route. -/
theorem transportErrorGenericPending (st : St) (u p tp : String) (a b : ℚ)
    (hdep : 10 ≤ a) (hu : u = st.user.username)
    (hmin : 5 ≤ b) (hactive : st.user.status = "active")
    (hbal : b ≤ st.user.balance) :
    ((depositInit st u p a PayOutcome.transportError).1.txs.getLast?).map
        Tx.status = some TxStatus.pending ∧
    (depositInit st u p a PayOutcome.transportError).2 = Resp.serverError ∧
    (depositInit st u p a PayOutcome.transportError).1.user.balance
        = st.user.balance ∧
    ((airtimeBuy st u tp b StatumOutcome.transportError).1.txs.getLast?).map
        Tx.status = some TxStatus.pending ∧
    (airtimeBuy st u tp b StatumOutcome.transportError).2 = Resp.serverError ∧
    (airtimeBuy st u tp b StatumOutcome.transportError).1.user.balance
        = st.user.balance := by
  have h10 : ¬ a < 10 := not_lt.mpr hdep
  have h5 : ¬ b < 5 := not_lt.mpr hmin
  have hb : ¬ st.user.balance < b := not_lt.mpr hbal
  simp only [depositInit, if_neg h10, if_pos hu, airtimeBuy,
    airtimeBuyStage1_call st u tp b h5 hu hactive hb, airtimeBuyFinish,
    List.getLast?_concat, Option.map_some']
  and_intros <;> trivial

/-- Claim C7 (amended with the floor and the percent-valued setting): a
successful airtime purchase reports the delivered value
`⌊requested * (1 - discountRate/100)⌋` — the floored discounted value
sent to the provider — while the full requested amount is debited. -/
theorem airtimeDeliveredFloorFullDebit (st : St) (u tp rid : String) (a : ℚ)
    (hmin : 5 ≤ a) (hu : u = st.user.username)
    (hactive : st.user.status = "active") (hbal : a ≤ st.user.balance) :
    (airtimeBuy st u tp a (StatumOutcome.ok rid)).2
        = Resp.airtimeOk st.nextId ⌊airtimeValueOf a st.settings⌋ ∧
    airtimeValueOf a st.settings
        = a * (1 - st.settings.airtimeDiscountRate / 100) ∧
    (airtimeBuy st u tp a (StatumOutcome.ok rid)).1.user.balance
        = st.user.balance - a := by
  have h5 : ¬ a < 5 := not_lt.mpr hmin
  have hb : ¬ st.user.balance < a := not_lt.mpr hbal
  simp only [airtimeBuy, airtimeBuyStage1_call st u tp a h5 hu hactive hb,
    airtimeBuyFinish]
  and_intros <;> trivial

theorem paynectaCallback_success_found (st : St) (ref code : String)
    (cbAmount : Option ℚ) (so : StatumOutcome) (tx : Tx)
    (hfind : findTxByRef st ref = some tx)
    (hnoq : st.queued.find?
        (fun q => q.userId == st.user.id && q.status == QStatus.pending)
      = none) :
    (paynectaCallback st ref "success" cbAmount code so).1.user.balance
      = st.user.balance +
          (depositAmountOf cbAmount tx.amount
            + depositBonusCb (depositAmountOf cbAmount tx.amount) st.settings) := by
  simp only [paynectaCallback, hfind, true_or, if_true, hnoq]

/-- Claim C1: a valid deposit (amount ≥ 10) initiated under any settings
and resolved by a successful callback after the settings were changed to
`s2` credits the balance by exactly `amount + bonus(amount)` computed
from `s2` — the settings in effect at resolution time, not at creation
time. -/
theorem depositResolutionTimeBonus (st : St) (username phone ck code : String)
    (amount : ℚ) (s2 : Settings) (so : StatumOutcome)
    (h10 : 10 ≤ amount)
    (huser : username = st.user.username)
    (hfresh : ∀ t ∈ st.txs, t.id ≠ st.nextId)
    (hnoref : ∀ t ∈ st.txs, refMatches t ck = false)
    (hnoq : st.queued.find?
        (fun q => q.userId == st.user.id && q.status == QStatus.pending)
      = none) :
    (paynectaCallback
        (adminUpdateSettings
          (depositInit st username phone amount (PayOutcome.ok ck)).1 s2)
        ck "success" none code so).1.user.balance
      = st.user.balance + amount + depositBonusCb amount s2 := by
  have h10' : ¬ amount < 10 := not_lt.mpr h10
  have hdep : (depositInit st username phone amount (PayOutcome.ok ck)).1
      = { st with
          txs := st.txs ++
            [{ depositTxRow st phone amount with providerRef := some ck }],
          nextId := st.nextId + 1 } := by
    simp only [depositInit, if_neg h10', if_pos huser]
    rw [updTx_append_fresh hfresh rfl]
  rw [hdep]
  have hfind : findTxByRef
      (adminUpdateSettings
        { st with
          txs := st.txs ++
            [{ depositTxRow st phone amount with providerRef := some ck }],
          nextId := st.nextId + 1 } s2) ck
      = some { depositTxRow st phone amount with providerRef := some ck } := by
    show (st.txs ++
        [{ depositTxRow st phone amount with providerRef := some ck }]).find?
        (fun t => t.userId == some st.user.id && refMatches t ck)
      = some { depositTxRow st phone amount with providerRef := some ck }
    rw [List.find?_append]
    have h1 : st.txs.find?
        (fun t => t.userId == some st.user.id && refMatches t ck) = none :=
      List.find?_eq_none.mpr (fun t ht => by simp [hnoref t ht])
    rw [h1]
    simp [refMatches, depositTxRow]
  rw [paynectaCallback_success_found _ ck code none so _ hfind hnoq]
  show st.user.balance + (amount + depositBonusCb amount s2) = _
  rw [add_assoc]

theorem depositBonusAdmin_eq_cb (a : ℚ) (s : Settings) :
    depositBonusAdmin a s = depositBonusCb a s := rfl

/-- Claim C8: admin approval of a manual deposit verification credits
exactly `amount + bonus(amount)` with the bonus computed by the very
formula the automatic callback uses (`depositBonusCb`) over the same
settings; rejection leaves the balance alone and marks both the
transaction and the matching verification rows failed. -/
theorem manualVerifyMatchesCallback (st : St) (txId : Nat) (a : ℚ) (tx : Tx)
    (hfind : st.txs.find? (fun t => t.id == txId) = some tx)
    (huid : tx.userId = some st.user.id) :
    (adminVerifyDeposit st txId a true).1.user.balance
        = st.user.balance + (a + depositBonusCb a st.settings) ∧
    (adminVerifyDeposit st txId a false).1.user.balance = st.user.balance ∧
    (∀ t ∈ (adminVerifyDeposit st txId a false).1.txs,
        t.id = txId → t.status = TxStatus.failed) ∧
    (∀ v ∈ (adminVerifyDeposit st txId a false).1.verifs,
        some v.mpesaCode = tx.mpesaCode → v.status = "failed") := by
  refine ⟨?_, ?_, ?_, ?_⟩
  · simp only [adminVerifyDeposit, hfind, huid, depositBonusAdmin_eq_cb,
      eq_self_iff_true, if_true]
  · simp only [adminVerifyDeposit, hfind, Bool.false_eq_true, if_false]
  · simp only [adminVerifyDeposit, hfind, updTx, Bool.false_eq_true, if_false]
    intro t ht hid
    obtain ⟨u, hu, hut⟩ := List.mem_map.mp ht
    by_cases h : u.id = txId
    · rw [← hut, if_pos h]
    · rw [← hut, if_neg h] at hid ⊢
      exact absurd hid h
  · simp only [adminVerifyDeposit, hfind, Bool.false_eq_true, if_false]
    intro v hv hcode
    obtain ⟨u, hu, huv⟩ := List.mem_map.mp hv
    by_cases h : some u.mpesaCode = tx.mpesaCode
    · rw [← huv, if_pos h]
    · rw [← huv, if_neg h] at hcode ⊢
      exact absurd hcode h

theorem processPendingPurchase_nonneg (st : St) (uid pid : Nat)
    (so : StatumOutcome) (hbal : 0 ≤ st.user.balance) :
    0 ≤ (processPendingPurchase st uid pid so).user.balance := by
  unfold processPendingPurchase
  split
  · exact hbal
  · next q hq =>
    split
    · split
      · next hge =>
        cases so with
        | ok rid => exact sub_nonneg.mpr hge
        | declined => exact hbal
        | transportError => exact hbal
      · exact hbal
    · exact hbal

theorem airtimeBuy_nonneg (st : St) (u tp : String) (a : ℚ)
    (so : StatumOutcome) (hbal : 0 ≤ st.user.balance) :
    0 ≤ (airtimeBuy st u tp a so).1.user.balance := by
  by_cases h5 : a < 5
  · simp only [airtimeBuy, airtimeBuyStage1, if_pos h5]
    exact hbal
  · by_cases hu : u = st.user.username ∧ st.user.status = "active"
    · by_cases hb : st.user.balance < a
      · simp only [airtimeBuy, airtimeBuyStage1, if_neg h5, if_pos hu,
          if_pos hb]
        exact hbal
      · cases so with
        | ok rid =>
          simp only [airtimeBuy, airtimeBuyStage1, if_neg h5, if_pos hu,
            if_neg hb, airtimeBuyFinish]
          exact sub_nonneg.mpr (not_lt.mp hb)
        | declined =>
          simp only [airtimeBuy, airtimeBuyStage1, if_neg h5, if_pos hu,
            if_neg hb, airtimeBuyFinish]
          exact hbal
        | transportError =>
          simp only [airtimeBuy, airtimeBuyStage1, if_neg h5, if_pos hu,
            if_neg hb, airtimeBuyFinish]
          exact hbal
    · simp only [airtimeBuy, airtimeBuyStage1, if_neg h5, if_neg hu]
      exact hbal

theorem paynectaCallback_nonneg (st : St) (ref cbStatus code : String)
    (cbAmount : Option ℚ) (so : StatumOutcome)
    (hbal : 0 ≤ st.user.balance)
    (hamts : ∀ t ∈ st.txs, 0 ≤ t.amount)
    (hcb : ∀ v, cbAmount = some v → 0 ≤ v) :
    0 ≤ st.settings.depositBonusAmount →
    0 ≤ (paynectaCallback st ref cbStatus cbAmount code so).1.user.balance := by
  intro hbonus
  unfold paynectaCallback
  cases hfind : findTxByRef st ref with
  | none => exact hbal
  | some tx =>
    have htx : tx ∈ st.txs := by
      unfold findTxByRef at hfind
      exact List.mem_of_find?_eq_some hfind
    by_cases hs : cbStatus = "success" ∨ cbStatus = "completed"
    · have ha : 0 ≤ depositAmountOf cbAmount tx.amount := by
        cases cbAmount with
        | none => exact hamts tx htx
        | some v =>
          show 0 ≤ if v = 0 then tx.amount else v
          by_cases hv : v = 0
          · rw [if_pos hv]
            exact hamts tx htx
          · rw [if_neg hv]
            exact hcb v rfl
      have hbns : 0 ≤ depositBonusCb (depositAmountOf cbAmount tx.amount)
          st.settings := by
        unfold depositBonusCb
        split
        · exact hbonus
        · exact le_refl 0
      have h2 : 0 ≤ st.user.balance
          + (depositAmountOf cbAmount tx.amount
              + depositBonusCb (depositAmountOf cbAmount tx.amount) st.settings) :=
        add_nonneg hbal (add_nonneg ha hbns)
      simp only [if_pos hs]
      split
      · exact processPendingPurchase_nonneg _ _ _ _ h2
      · exact h2
    · simp only [if_neg hs]
      exact hbal

/-- Claim C9 (amended): the ledger operations proper preserve a
non-negative balance — the callback credit (for a non-negative reported
amount and bonus setting), the airtime debit (guarded by the balance
check), and the queued-purchase settlement (same guard) — while the
admin balance adjustment is unguarded and can drive the balance negative
(see the counterexample). -/
theorem ledgerOpsPreserveNonneg (st : St) (u tp ref cbStatus code : String)
    (a : ℚ) (cbAmount : Option ℚ) (so : StatumOutcome) (uid pid : Nat)
    (hbal : 0 ≤ st.user.balance)
    (hamts : ∀ t ∈ st.txs, 0 ≤ t.amount)
    (hcb : ∀ v, cbAmount = some v → 0 ≤ v)
    (hbonus : 0 ≤ st.settings.depositBonusAmount) :
    0 ≤ (paynectaCallback st ref cbStatus cbAmount code so).1.user.balance ∧
    0 ≤ (airtimeBuy st u tp a so).1.user.balance ∧
    0 ≤ (processPendingPurchase st uid pid so).user.balance :=
  ⟨paynectaCallback_nonneg st ref cbStatus code cbAmount so hbal hamts hcb hbonus,
   airtimeBuy_nonneg st u tp a so hbal,
   processPendingPurchase_nonneg st uid pid so hbal⟩

/-! ## Witnesses -/

/-- Witness for C1 at a deposit of 60 with resolution-time settings
threshold 40 / bonus 7 (different from the creation-time defaults). -/
theorem depositResolutionTimeBonusWitness :
    (paynectaCallback
        (adminUpdateSettings
          (depositInit baseSt "alice" "0712345678" 60 (PayOutcome.ok "CHK1")).1
          { depositBonusThreshold := 40, depositBonusAmount := 7,
            airtimeDiscountRate := 10 })
        "CHK1" "success" none "MP1" StatumOutcome.transportError).1.user.balance
      = baseSt.user.balance + 60 +
          depositBonusCb 60
            { depositBonusThreshold := 40, depositBonusAmount := 7,
              airtimeDiscountRate := 10 } :=
  depositResolutionTimeBonus baseSt "alice" "0712345678" "CHK1" "MP1" 60
    { depositBonusThreshold := 40, depositBonusAmount := 7,
      airtimeDiscountRate := 10 }
    StatumOutcome.transportError
    (by norm_num) rfl (by simp [baseSt]) (by simp [baseSt]) rfl

/-- Witness for C4 at balance 3 and a request for 5 (shortfall 2). -/
theorem insufficientBalanceQueuesWitness :
    (airtimeBuy balThreeSt "alice" "0712345678" 5
        StatumOutcome.transportError).1.user.balance
      = balThreeSt.user.balance ∧
    (airtimeBuy balThreeSt "alice" "0712345678" 5
        StatumOutcome.transportError).1.txs = balThreeSt.txs ∧
    (airtimeBuy balThreeSt "alice" "0712345678" 5
        StatumOutcome.transportError).1.queued
      = balThreeSt.queued ++ [queuedRow balThreeSt "0712345678" 5] ∧
    (queuedRow balThreeSt "0712345678" 5).status = QStatus.pending ∧
    (queuedRow balThreeSt "0712345678" 5).amount = 5 ∧
    (airtimeBuy balThreeSt "alice" "0712345678" 5
        StatumOutcome.transportError).2
      = Resp.insufficient 5 balThreeSt.user.balance
          (5 - balThreeSt.user.balance) :=
  insufficientBalanceQueues balThreeSt "alice" "0712345678" 5
    StatumOutcome.transportError
    (by norm_num) rfl rfl (by norm_num [balThreeSt, baseSt])

/-- Witness for C5 at balance 10 and a request for 5. -/
theorem debitOnlyAfterProviderSuccessWitness :
    (stageSt (airtimeBuyStage1 balTenSt "alice" "0712345678" 5)).user.balance
        = balTenSt.user.balance ∧
    (airtimeBuy balTenSt "alice" "0712345678" 5
        StatumOutcome.declined).1.user.balance = balTenSt.user.balance ∧
    (airtimeBuy balTenSt "alice" "0712345678" 5
        StatumOutcome.transportError).1.user.balance = balTenSt.user.balance ∧
    (airtimeBuy balTenSt "alice" "0712345678" 5
        (StatumOutcome.ok "RQ1")).1.user.balance = balTenSt.user.balance - 5 :=
  debitOnlyAfterProviderSuccess balTenSt "alice" "0712345678" "RQ1" 5
    (by norm_num) rfl rfl (by norm_num [balTenSt, baseSt])

/-- Witness for C6 at a deposit of 20 and an airtime request of 5. -/
theorem transportErrorGenericPendingWitness :
    ((depositInit balTenSt "alice" "0712345678" 20
        PayOutcome.transportError).1.txs.getLast?).map Tx.status
      = some TxStatus.pending ∧
    (depositInit balTenSt "alice" "0712345678" 20
        PayOutcome.transportError).2 = Resp.serverError ∧
    (depositInit balTenSt "alice" "0712345678" 20
        PayOutcome.transportError).1.user.balance = balTenSt.user.balance ∧
    ((airtimeBuy balTenSt "alice" "0799000111" 5
        StatumOutcome.transportError).1.txs.getLast?).map Tx.status
      = some TxStatus.pending ∧
    (airtimeBuy balTenSt "alice" "0799000111" 5
        StatumOutcome.transportError).2 = Resp.serverError ∧
    (airtimeBuy balTenSt "alice" "0799000111" 5
        StatumOutcome.transportError).1.user.balance = balTenSt.user.balance :=
  transportErrorGenericPending balTenSt "alice" "0712345678" "0799000111" 20 5
    (by norm_num) rfl (by norm_num) rfl (by norm_num [balTenSt, baseSt])

/-- Witness for C7 at balance 10, request 5, discount setting 10. -/
theorem airtimeDeliveredFloorFullDebitWitness :
    (airtimeBuy balTenSt "alice" "0712345678" 5 (StatumOutcome.ok "RQ1")).2
        = Resp.airtimeOk balTenSt.nextId
            ⌊airtimeValueOf 5 balTenSt.settings⌋ ∧
    airtimeValueOf 5 balTenSt.settings
        = 5 * (1 - balTenSt.settings.airtimeDiscountRate / 100) ∧
    (airtimeBuy balTenSt "alice" "0712345678" 5
        (StatumOutcome.ok "RQ1")).1.user.balance
        = balTenSt.user.balance - 5 :=
  airtimeDeliveredFloorFullDebit balTenSt "alice" "0712345678" "RQ1" 5
    (by norm_num) rfl rfl (by norm_num [balTenSt, baseSt])

/-- Witness for C8 at a pending manual verification approved (or
rejected) with amount 60. -/
theorem manualVerifyMatchesCallbackWitness :
    (adminVerifyDeposit manualVerifySt 1 60 true).1.user.balance
        = manualVerifySt.user.balance +
            (60 + depositBonusCb 60 manualVerifySt.settings) ∧
    (adminVerifyDeposit manualVerifySt 1 60 false).1.user.balance
        = manualVerifySt.user.balance ∧
    (∀ t ∈ (adminVerifyDeposit manualVerifySt 1 60 false).1.txs,
        t.id = 1 → t.status = TxStatus.failed) ∧
    (∀ v ∈ (adminVerifyDeposit manualVerifySt 1 60 false).1.verifs,
        some v.mpesaCode
            = ({ id := 1, userId := some 1, kind := TxKind.deposit,
                 amount := 0, bonus := 0, fee := 0, status := TxStatus.pending,
                 providerRef := none, mpesaCode := some "ABC123",
                 phone := "254712345678" } : Tx).mpesaCode →
          v.status = "failed") :=
  manualVerifyMatchesCallback manualVerifySt 1 60
    { id := 1, userId := some 1, kind := TxKind.deposit, amount := 0,
      bonus := 0, fee := 0, status := TxStatus.pending, providerRef := none,
      mpesaCode := some "ABC123", phone := "254712345678" }
    rfl rfl

/-- Witness for C9 at balance 5 with a success callback reporting 60. -/
theorem ledgerOpsPreserveNonnegWitness :
    0 ≤ (paynectaCallback balFiveSt "R1" "success" (some 60) "MP1"
        (StatumOutcome.ok "RQ1")).1.user.balance ∧
    0 ≤ (airtimeBuy balFiveSt "alice" "0712345678" 5
        (StatumOutcome.ok "RQ1")).1.user.balance ∧
    0 ≤ (processPendingPurchase balFiveSt 1 1
        (StatumOutcome.ok "RQ1")).user.balance :=
  ledgerOpsPreserveNonneg balFiveSt "alice" "0712345678" "R1" "success" "MP1"
    5 (some 60) (StatumOutcome.ok "RQ1") 1 1
    (by norm_num [balFiveSt, baseSt]) (by simp [balFiveSt, baseSt])
    (by intro v hv; injection hv with h; rw [← h]; norm_num)
    (by norm_num [balFiveSt, baseSt])

end Airtime
